import Mathlib

/-!
Shallow embedding of the cart engine, checkout-message composer and
catalog read-model sync of `src/components/Catalogue.tsx` (the
`FastFoodCatalogue` component of the raj-restro repository), together
with theorems settling the specification claims about them.

Conventions of the embedding:
* JavaScript numbers that hold prices are modelled as `ℚ` (the spec
  requires the half-price division to be exact and unrounded);
  quantities are modelled as `ℤ`.
* Optional TypeScript fields (`halfPrice?: number`, ...) are `Option`s.
* JavaScript truthiness on numbers (`x || y`) is modelled explicitly:
  a missing value and the value `0` both fall through to `y`.
* React state setters become pure functions from state to state.
-/

set_option maxRecDepth 8192

namespace RajRestro

/-- The two portion choices, `"half" | "full"` in the source. -/
inductive Portion where
  | half
  | full
deriving DecidableEq

/-- The order-mode union `"offline" | "online"` of the source
(`offline` = takeaway / pickup, `online` = delivery). -/
inductive OrderMode where
  | offline
  | online
deriving DecidableEq

/-- The `Product` interface of `Catalogue.tsx` (the `createdAt`
timestamp, used only for ordering, is kept as an optional integer of
milliseconds). The `quantity` field is the free-text "serves" label. -/
structure Product where
  id : String
  name : String
  price : ℚ
  halfPrice : Option ℚ
  quantity : Option String
  description : Option String
  imageUrl : Option String
  imageUrls : Option (List String)
  createdAt : Option ℤ
  isVeg : Bool
deriving DecidableEq

/-- The `CartItem` interface of `Catalogue.tsx`. -/
structure CartItem where
  id : String
  name : String
  price : ℚ
  halfPrice : Option ℚ
  quantity : ℤ
  portion : Portion
  description : Option String
  imageUrl : Option String
  imageUrls : Option (List String)
  isVeg : Bool
  serves : Option String
deriving DecidableEq

/-- JavaScript `x || y` applied to an optional number `x`: `undefined`
and `0` are falsy, any other number is returned unchanged. -/
def jsOrNum (x : Option ℚ) (y : ℚ) : ℚ :=
  match x with
  | none => y
  | some v => if v = 0 then y else v

/-- Price resolution of `handleAddToCart`:
`tempPortion === "half" ? selectedProduct.halfPrice || selectedProduct.price / 2
 : selectedProduct.price`. -/
def resolvePrice (p : Product) (portion : Portion) : ℚ :=
  match portion with
  | .half => jsOrNum p.halfPrice (p.price / 2)
  | .full => p.price

/-- The `newItem : CartItem` literal built inside `handleAddToCart`. -/
def mkCartItem (p : Product) (portion : Portion) (qty : ℤ) : CartItem :=
  { id := p.id
    name := p.name
    price := resolvePrice p portion
    halfPrice := p.halfPrice
    quantity := qty
    portion := portion
    description := p.description
    imageUrl := p.imageUrl
    imageUrls := p.imageUrls
    isVeg := p.isVeg
    serves := p.quantity }

/-- The key on which cart lines are matched: `(productId, portion)`. -/
def lineKey (i : CartItem) : String × Portion :=
  (i.id, i.portion)

/-- The cart update of `handleAddToCart`: if a line with the same
`(id, portion)` exists (`prev.find(...)` is truthy), every matching line
gets its quantity increased by `qty` via object spread; otherwise the
new item is appended. -/
def addToCart (cart : List CartItem) (p : Product) (portion : Portion)
    (qty : ℤ) : List CartItem :=
  let newItem := mkCartItem p portion qty
  if cart.any (fun i => decide (i.id = newItem.id ∧ i.portion = newItem.portion)) then
    cart.map (fun i =>
      if i.id = newItem.id ∧ i.portion = newItem.portion then
        { i with quantity := i.quantity + qty }
      else i)
  else
    cart ++ [newItem]

/-- `increaseQty`: `quantity + 1` on every line matching `(id, portion)`. -/
def increaseQty (cart : List CartItem) (id : String) (portion : Portion) :
    List CartItem :=
  cart.map (fun i =>
    if i.id = id ∧ i.portion = portion then
      { i with quantity := i.quantity + 1 }
    else i)

/-- `decreaseQty`: `Math.max(1, quantity - 1)` on every matching line,
then `.filter((i) => i.quantity > 0)`. -/
def decreaseQty (cart : List CartItem) (id : String) (portion : Portion) :
    List CartItem :=
  (cart.map (fun i =>
    if i.id = id ∧ i.portion = portion then
      { i with quantity := max 1 (i.quantity - 1) }
    else i)).filter (fun i => decide (0 < i.quantity))

/-- `removeFromCart`: drop every line matching `(id, portion)`. -/
def removeFromCart (cart : List CartItem) (id : String) (portion : Portion) :
    List CartItem :=
  cart.filter (fun i => decide (¬ (i.id = id ∧ i.portion = portion)))

/-- `const subtotal = cart.reduce((acc, item) => acc + item.price * item.quantity, 0)`. -/
def subtotal (cart : List CartItem) : ℚ :=
  cart.foldl (fun acc i => acc + i.price * (i.quantity : ℚ)) 0

/-- `const totalAmount = orderMode === "online" ? subtotal + deliveryCharge : subtotal`. -/
def totalAmount (mode : OrderMode) (cart : List CartItem)
    (deliveryCharge : ℚ) : ℚ :=
  if mode = OrderMode.online then subtotal cart + deliveryCharge
  else subtotal cart

/-! ### Checkout-message composer (`handleProceedToBuy`) -/

/-- JavaScript `Number.prototype.toFixed(2)` for the non-negative exact
amounts this program produces: round to the nearest hundredth (ties up)
and print with exactly two decimal digits. -/
def toFixed2 (q : ℚ) : String :=
  let n : ℤ := ⌊q * 100 + 1 / 2⌋
  let w : ℤ := n / 100
  let f : ℕ := (n % 100).toNat
  toString w ++ "." ++ (if f < 10 then "0" ++ toString f else toString f)

/-- JavaScript template interpolation of a number
(`` `₹${deliveryCharge}` ``); exact for the integral values the
delivery-charge document holds. -/
def jsNumToString (q : ℚ) : String :=
  if q.den = 1 then toString q.num else toString q

/-- `item.portion === "half" ? " (Half)" : " (Full)"`. -/
def portionLabelOf : Portion → String
  | .half => " (Half)"
  | .full => " (Full)"

/-- One line of `orderDetails` from `handleProceedToBuy`:
`` `*${item.name}${portionLabel}${serves}${qtyLabel}* — ₹${(item.price * item.quantity).toFixed(2)}` ``
with `qtyLabel = item.quantity > 1 ? " x.." : ""` and
`serves = item.serves && item.serves !== "1" ? " [..]" : ""`
(truthiness: a missing or empty serves label is falsy). -/
def orderLine (i : CartItem) : String :=
  let qtyLabel := if 1 < i.quantity then " x" ++ toString i.quantity else ""
  let servesLabel :=
    match i.serves with
    | none => ""
    | some s => if s ≠ "" ∧ s ≠ "1" then " [" ++ s ++ "]" else ""
  "*" ++ i.name ++ portionLabelOf i.portion ++ servesLabel ++ qtyLabel
    ++ "* — ₹" ++ toFixed2 (i.price * (i.quantity : ℚ))

/-- `` const newOrderId = `FF-${Math.floor(100000 + Math.random() * 900000)}` ``,
with the `Math.random()` draw passed in explicitly. -/
def mkOrderId (rand : ℚ) : String :=
  "FF-" ++ toString (⌊100000 + rand * 900000⌋ : ℤ)

/-- The `message` string built by `handleProceedToBuy` once validation
has passed. -/
def composeMessage (cart : List CartItem) (mode : OrderMode)
    (deliveryCharge : ℚ) (name phone addr orderId : String) : String :=
  let orderDetails := String.intercalate "\n" (cart.map orderLine)
  let modeLabel :=
    if mode = OrderMode.online then "Delivery (Online)" else "Takeaway (Offline)"
  let base := "*New Order*\n\n*Order ID:* " ++ orderId ++ "\n*Mode:* "
    ++ modeLabel ++ "\n\n" ++ orderDetails ++ "\n\n*Subtotal: ₹"
    ++ toFixed2 (subtotal cart) ++ "*"
  let total := totalAmount mode cart deliveryCharge
  let withTrailer :=
    if mode = OrderMode.online then
      base ++ "\n*Delivery Charge: ₹" ++ jsNumToString deliveryCharge
        ++ "*\n*Total: ₹" ++ toFixed2 total ++ "*\n\n*Customer Details:*\nName: "
        ++ name ++ "\nPhone: " ++ phone ++ "\nAddress: " ++ addr
    else
      base ++ "\n*Total: ₹" ++ toFixed2 total ++ "*"
  withTrailer ++ "\n\nPlease confirm my order."

/-- `customerPhone.replace(/\D/g, "")`: keep only the decimal digits. -/
def stripNonDigits (s : String) : String :=
  String.mk (s.data.filter Char.isDigit)

/-- `/^\d{10}$/.test(s)`: `s` consists of exactly ten decimal digits. -/
def isTenDigits (s : String) : Bool :=
  s.length = 10 && s.data.all Char.isDigit

/-- `handleProceedToBuy`. Result `none` models the early returns (empty
cart, or a failed delivery-mode validation): no order id is generated,
no message is composed or handed off, and the component state — in
particular the cart — is left unchanged. Result `some (orderId, message,
newCart)` models the success path: the message is handed off and the
cart is cleared (`setCart([])`). -/
def handleProceedToBuy (cart : List CartItem) (mode : OrderMode)
    (name phone addr : String) (deliveryCharge rand : ℚ) :
    Option (String × String × List CartItem) :=
  if cart.length = 0 then none
  else if mode = OrderMode.online ∧ (name = "" ∨ phone = "" ∨ addr = "") then
    none
  else if mode = OrderMode.online ∧ ¬ isTenDigits (stripNonDigits phone) then
    none
  else
    let orderId := mkOrderId rand
    some (orderId, composeMessage cart mode deliveryCharge name phone addr orderId, [])

/-! ### Cart rehydration from durable client storage -/

/-- JSON values, the possible results of `JSON.parse`. -/
inductive Json where
  | nul
  | bool (b : Bool)
  | num (q : ℚ)
  | str (s : String)
  | arr (elems : List Json)
  | obj (fields : List (String × Json))

/-- What the rehydration effect adopts from one `JSON.parse` outcome:
`setCart(Array.isArray(parsed) ? parsed : [])` inside the `try`, and
the `catch` branch only calling `console.error` (the cart keeps its
initial value `[]`). -/
def adoptParsed : Except String Json → List Json
  | .error _ => []
  | .ok (.arr xs) => xs
  | .ok _ => []

/-- The cart-read effect of `Catalogue.tsx` (lines 271-281):
`localStorage.getItem("fastfood_cart")` is the argument (`none` when no
entry is stored), `parse` is `JSON.parse`. The result is the adopted
initial cart together with the stored entry after this read handler
alone ran — the read handler contains no write or removal; the
separate mirror effect that runs at mount as well is modelled by
`mountCartEffects` below. -/
def rehydrateCart (parse : String → Except String Json)
    (stored : Option String) : List Json × Option String :=
  match stored with
  | none => ([], none)
  | some s => (adoptParsed (parse s), some s)

/-- One escaped character of a JSON string literal, as produced by
`JSON.stringify` (quote, backslash and the common control characters;
other characters are emitted verbatim). -/
def escapeJsonChar (c : Char) : String :=
  if c = '"' then "\\\""
  else if c = '\\' then "\\\\"
  else if c = '\n' then "\\n"
  else if c = '\t' then "\\t"
  else if c = '\r' then "\\r"
  else String.singleton c

/-- A JSON string literal with its surrounding quotes. -/
def quoteJsonString (s : String) : String :=
  "\"" ++ String.join (s.data.map escapeJsonChar) ++ "\""

mutual

/-- `JSON.stringify` on the embedded `Json` values. -/
def stringifyJson : Json → String
  | .nul => "null"
  | .bool true => "true"
  | .bool false => "false"
  | .num q => jsNumToString q
  | .str s => quoteJsonString s
  | .arr xs => "[" ++ stringifyJsonList xs ++ "]"
  | .obj fs => "\x7b" ++ stringifyJsonFields fs ++ "\x7d"

/-- Comma-joined array elements. -/
def stringifyJsonList : List Json → String
  | [] => ""
  | [x] => stringifyJson x
  | x :: y :: xs => stringifyJson x ++ "," ++ stringifyJsonList (y :: xs)

/-- Comma-joined `key:value` object fields. -/
def stringifyJsonFields : List (String × Json) → String
  | [] => ""
  | [(k, v)] => quoteJsonString k ++ ":" ++ stringifyJson v
  | (k, v) :: f :: fs =>
      quoteJsonString k ++ ":" ++ stringifyJson v ++ ","
        ++ stringifyJsonFields (f :: fs)

end

/-- Both cart effects of `Catalogue.tsx` at process start, in their
declaration order (the claim's span, lines 271-285). The read effect
adopts the stored value via `rehydrateCart`; the mirror effect
`localStorage.setItem("fastfood_cart", JSON.stringify(cart))` runs at
mount too — first with the initial render's `cart = []` (the read
effect's `setCart` only lands on the re-render), overwriting whatever
was stored with `"[]"`, and again after the re-render with the adopted
cart. The result is the adopted cart together with the stored entry
once mount settles: the serialization of the adopted cart. -/
def mountCartEffects (parse : String → Except String Json)
    (stored : Option String) : List Json × Option String :=
  let cart := (rehydrateCart parse stored).1
  (cart, some (stringifyJson (Json.arr cart)))

/-! ### Catalog read-model sync state and its error handlers -/

/-- The `Category` interface of `Catalogue.tsx`. -/
structure Category where
  id : String
  name : String
  imageUrl : Option String
  createdAt : Option ℤ
deriving DecidableEq

/-- JavaScript object spread-with-override
`\x7b ...prev, [k]: v \x7d` on a record viewed as an insertion-ordered
association list: an existing key keeps its position and gets the new
value, a new key is appended. -/
def updateEntry {α : Type} (m : List (String × α)) (k : String) (v : α) :
    List (String × α) :=
  if m.any (fun e => decide (e.1 = k)) then
    m.map (fun e => if e.1 = k then (k, v) else e)
  else
    m ++ [(k, v)]

/-- Record lookup `m[k]`: the value of the first (and, by the override
semantics of `updateEntry`, only) entry with key `k`. -/
def lookupEntry {α : Type} (m : List (String × α)) (k : String) : Option α :=
  match m with
  | [] => none
  | e :: rest => if e.1 = k then some e.2 else lookupEntry rest k

/-- The sync-related React state cells of `FastFoodCatalogue`. -/
structure SyncState where
  categories : List Category
  productsByCat : List (String × List Product)
  loadingProductsByCat : List (String × Bool)
  loadingCategories : Bool

/-- The error handler of the category `onSnapshot` subscription:
`console.error(...); setLoadingCategories(false)`. -/
def onCategoriesError (s : SyncState) : SyncState :=
  { s with loadingCategories := false }

/-- The error handler of a product `onSnapshot` subscription for
category `catId`: `console.error(...);
setLoadingProductsByCat(prev => (\x7b ...prev, [cat.id]: false \x7d))`. -/
def onProductsError (catId : String) (s : SyncState) : SyncState :=
  { s with loadingProductsByCat := updateEntry s.loadingProductsByCat catId false }

/-! ### Operation sequences over the cart -/

/-- The cart operations reachable from the UI. -/
inductive CartOp where
  | add (p : Product) (portion : Portion) (qty : ℤ)
  | inc (id : String) (portion : Portion)
  | dec (id : String) (portion : Portion)
  | del (id : String) (portion : Portion)

/-- Apply one operation to the cart. -/
def CartOp.apply (cart : List CartItem) : CartOp → List CartItem
  | .add p portion qty => addToCart cart p portion qty
  | .inc id portion => increaseQty cart id portion
  | .dec id portion => decreaseQty cart id portion
  | .del id portion => removeFromCart cart id portion

/-- The UI constraint on an operation: the quantity argument of an add
is at least 1 (the quantity picker never goes below 1). -/
def CartOp.legal : CartOp → Prop
  | .add _ _ qty => 1 ≤ qty
  | .inc _ _ => True
  | .dec _ _ => True
  | .del _ _ => True

instance (op : CartOp) : Decidable op.legal :=
  match op with
  | .add _ _ qty => inferInstanceAs (Decidable (1 ≤ qty))
  | .inc _ _ => inferInstanceAs (Decidable True)
  | .dec _ _ => inferInstanceAs (Decidable True)
  | .del _ _ => inferInstanceAs (Decidable True)

/-- Run a sequence of operations starting from the empty cart. -/
def runOps (ops : List CartOp) : List CartItem :=
  ops.foldl CartOp.apply []

/-- Well-formedness of a cart: the `(productId, portion)` keys are
pairwise distinct and every held quantity is at least 1. -/
def CartWf (cart : List CartItem) : Prop :=
  (cart.map lineKey).Nodup ∧ ∀ i ∈ cart, 1 ≤ i.quantity

instance (cart : List CartItem) : Decidable (CartWf cart) :=
  inferInstanceAs (Decidable (_ ∧ _))

/-! ### Concrete values used by counterexamples and witnesses -/

/-- A cart line holding exactly one unit. -/
def c1item : CartItem :=
  { id := "p1", name := "Veg Roll", price := 10, halfPrice := none,
    quantity := 1, portion := .full, description := none, imageUrl := none,
    imageUrls := none, isVeg := true, serves := none }

/-- A product whose half price is explicitly stored as `0`. -/
def pHalfZero : Product :=
  { id := "p2", name := "Chowmein", price := 100, halfPrice := some 0,
    quantity := some "1", description := none, imageUrl := none,
    imageUrls := none, createdAt := none, isVeg := true }

/-- The cart line of the pickup checkout scenario:
two full portions of Paneer Roll at 120 each. -/
def c7item : CartItem :=
  { id := "paneer-roll", name := "Paneer Roll", price := 120, halfPrice := none,
    quantity := 2, portion := .full, description := none, imageUrl := none,
    imageUrls := none, isVeg := true, serves := some "1" }

/-- A sample product for operation sequences. -/
def exProduct : Product :=
  { id := "p1", name := "Veg Roll", price := 60, halfPrice := none,
    quantity := some "1", description := none, imageUrl := none,
    imageUrls := none, createdAt := some 2, isVeg := true }

/-- A sample legal operation sequence. -/
def exOps : List CartOp :=
  [CartOp.add exProduct Portion.full 2,
   CartOp.add exProduct Portion.half 1,
   CartOp.inc "p1" Portion.full,
   CartOp.dec "p1" Portion.half,
   CartOp.del "p1" Portion.full]

/-- A sample category. -/
def exCategory : Category :=
  { id := "c1", name := "Rolls", imageUrl := none, createdAt := some 1 }

/-- A sync state with synced content and two categories still loading. -/
def exSync : SyncState :=
  { categories := [exCategory]
    productsByCat := [("c1", [exProduct])]
    loadingProductsByCat := [("c1", true), ("c2", true)]
    loadingCategories := true }

/-- A `JSON.parse` that rejects its input, as on a corrupt stored cart. -/
def failingParse : String → Except String Json := fun _ =>
  Except.error "SyntaxError: Unexpected token"

/-! ### Helper lemmas -/

/-- Evaluation helper for `toFixed2` once the scaled floor is known. -/
theorem toFixed2_eq_of_floor (q : ℚ) (n : ℤ) (h : ⌊q * 100 + 1 / 2⌋ = n) :
    toFixed2 q = toString (n / 100) ++ "." ++
      (if (n % 100).toNat < 10 then "0" ++ toString (n % 100).toNat
       else toString (n % 100).toNat) := by
  unfold toFixed2
  rw [h]

/-- Lookup after the replace branch of `updateEntry`. -/
theorem lookupEntry_map_replace {α : Type} (k : String) (v : α)
    (m : List (String × α)) (c : String) :
    lookupEntry (m.map (fun e => if e.1 = k then (k, v) else e)) c
      = if c = k then (lookupEntry m k).map (fun _ => v)
        else lookupEntry m c := by
  induction m with
  | nil => by_cases hc : c = k <;> simp [lookupEntry, hc]
  | cons e rest ih =>
    rw [List.map_cons]
    by_cases he : e.1 = k
    · by_cases hc : c = k
      · subst hc
        simp [lookupEntry, he]
      · have hkc : ¬ k = c := fun h => hc h.symm
        have hec : ¬ e.1 = c := he ▸ hkc
        simp [lookupEntry, he, hc, hkc, hec, ih]
    · by_cases hc : c = k
      · subst hc
        simp [lookupEntry, he, ih]
      · by_cases hec : e.1 = c
        · simp [lookupEntry, he, hec, hc]
        · simp [lookupEntry, he, hec, hc, ih]

/-- Lookup after the append branch of `updateEntry`, missing-key case. -/
theorem lookupEntry_append_single_of_none {α : Type} (m : List (String × α))
    (k c : String) (v : α) (h : lookupEntry m c = none) :
    lookupEntry (m ++ [(k, v)]) c = if c = k then some v else none := by
  induction m with
  | nil =>
    by_cases hc : c = k
    · subst hc
      simp [lookupEntry]
    · have hkc : ¬ k = c := fun h2 => hc h2.symm
      simp [lookupEntry, hc, hkc]
  | cons e rest ih =>
    by_cases hec : e.1 = c
    · simp [lookupEntry, hec] at h
    · rw [lookupEntry] at h
      rw [if_neg hec] at h
      rw [List.cons_append, lookupEntry, if_neg hec]
      exact ih h

/-- Lookup after the append branch of `updateEntry`, found-key case. -/
theorem lookupEntry_append_single_of_some {α : Type} (m : List (String × α))
    (k c : String) (v w : α) (h : lookupEntry m c = some w) :
    lookupEntry (m ++ [(k, v)]) c = some w := by
  induction m with
  | nil => simp [lookupEntry] at h
  | cons e rest ih =>
    by_cases hec : e.1 = c
    · rw [lookupEntry] at h
      rw [if_pos hec] at h
      rw [List.cons_append, lookupEntry, if_pos hec]
      exact h
    · rw [lookupEntry] at h
      rw [if_neg hec] at h
      rw [List.cons_append, lookupEntry, if_neg hec]
      exact ih h

/-- A key that no entry carries looks up to `none`. -/
theorem lookupEntry_none_of_no_key {α : Type} (m : List (String × α))
    (k : String) (hmem : ¬ m.any (fun e => decide (e.1 = k)) = true) :
    lookupEntry m k = none := by
  induction m with
  | nil => rfl
  | cons f rest ih =>
    rw [List.any_cons] at hmem
    simp only [Bool.or_eq_true, not_or] at hmem
    have hf : ¬ f.1 = k := by simpa using hmem.1
    rw [lookupEntry, if_neg hf]
    exact ih (by simpa using hmem.2)

/-- A key that some entry carries looks up to a value. -/
theorem lookupEntry_isSome_of_key {α : Type} (m : List (String × α))
    (k : String) (hmem : m.any (fun e => decide (e.1 = k)) = true) :
    ∃ w, lookupEntry m k = some w := by
  induction m with
  | nil => simp at hmem
  | cons f rest ih =>
    by_cases hf : f.1 = k
    · exact ⟨f.2, by rw [lookupEntry, if_pos hf]⟩
    · rw [List.any_cons] at hmem
      simp only [Bool.or_eq_true] at hmem
      rcases hmem with h | h
      · exact absurd (by simpa using h) hf
      · obtain ⟨w, hw⟩ := ih h
        exact ⟨w, by rw [lookupEntry, if_neg hf]; exact hw⟩

/-- After `updateEntry m k v`, key `k` holds `v`. -/
theorem lookupEntry_update_self {α : Type} (m : List (String × α))
    (k : String) (v : α) :
    lookupEntry (updateEntry m k v) k = some v := by
  unfold updateEntry
  by_cases hmem : m.any (fun e => decide (e.1 = k)) = true
  · rw [if_pos hmem, lookupEntry_map_replace, if_pos rfl]
    obtain ⟨w, hw⟩ := lookupEntry_isSome_of_key m k hmem
    rw [hw]
    rfl
  · rw [if_neg hmem,
      lookupEntry_append_single_of_none m k k v
        (lookupEntry_none_of_no_key m k hmem),
      if_pos rfl]

/-- After `updateEntry m k v`, every other key is unchanged. -/
theorem lookupEntry_update_other {α : Type} (m : List (String × α))
    (k c : String) (v : α) (hck : c ≠ k) :
    lookupEntry (updateEntry m k v) c = lookupEntry m c := by
  unfold updateEntry
  by_cases hmem : m.any (fun e => decide (e.1 = k)) = true
  · rw [if_pos hmem, lookupEntry_map_replace, if_neg hck]
  · rw [if_neg hmem]
    cases hl : lookupEntry m c with
    | none =>
      rw [lookupEntry_append_single_of_none m k c v hl, if_neg hck]
    | some w =>
      exact lookupEntry_append_single_of_some m k c v w hl

/-- A quantity-only map step preserves cart well-formedness when the
new quantities stay at least 1. -/
theorem wf_map_update (cart : List CartItem) (c : CartItem → Prop)
    [DecidablePred c] (g : CartItem → ℤ)
    (hg : ∀ i ∈ cart, 1 ≤ i.quantity → 1 ≤ g i) (hwf : CartWf cart) :
    CartWf (cart.map (fun i => if c i then { i with quantity := g i } else i)) := by
  obtain ⟨hnd, hq⟩ := hwf
  constructor
  · rw [List.map_map]
    have hcomp : (lineKey ∘ fun i => if c i then { i with quantity := g i } else i)
        = lineKey := by
      funext i
      by_cases hc : c i <;> simp [hc, lineKey, Function.comp]
    rw [hcomp]
    exact hnd
  · intro j hj
    simp only [List.mem_map] at hj
    obtain ⟨i, hi, rfl⟩ := hj
    by_cases hc : c i
    · rw [if_pos hc]
      exact hg i hi (hq i hi)
    · rw [if_neg hc]
      exact hq i hi

/-- Filtering preserves cart well-formedness. -/
theorem wf_filter (cart : List CartItem) (pred : CartItem → Bool)
    (hwf : CartWf cart) : CartWf (cart.filter pred) := by
  obtain ⟨hnd, hq⟩ := hwf
  refine ⟨hnd.sublist ((List.filter_sublist cart).map lineKey), ?_⟩
  exact fun i hi => hq i (List.mem_of_mem_filter hi)

/-- Every legal cart operation preserves well-formedness. -/
theorem wf_apply (cart : List CartItem) (op : CartOp) (hwf : CartWf cart)
    (hl : op.legal) : CartWf (CartOp.apply cart op) := by
  cases op with
  | add p portion qty =>
    have hq1 : 1 ≤ qty := hl
    show CartWf (addToCart cart p portion qty)
    unfold addToCart
    by_cases hany : cart.any (fun i =>
        decide (i.id = (mkCartItem p portion qty).id ∧
          i.portion = (mkCartItem p portion qty).portion)) = true
    · rw [if_pos hany]
      exact wf_map_update cart _ _ (fun i _ h => by omega) hwf
    · rw [if_neg hany]
      obtain ⟨hnd, hqty⟩ := hwf
      constructor
      · rw [List.map_append]
        rw [List.nodup_append]
        refine ⟨hnd, List.nodup_singleton _, ?_⟩
        intro k hk
        simp only [List.mem_map] at hk
        obtain ⟨i, hi, rfl⟩ := hk
        simp only [List.map_cons, List.mem_singleton, List.map_nil,
          List.mem_cons, List.not_mem_nil, or_false]
        intro hkey
        apply hany
        rw [List.any_eq_true]
        refine ⟨i, hi, ?_⟩
        simp only [decide_eq_true_eq, mkCartItem]
        exact ⟨congrArg Prod.fst hkey, congrArg Prod.snd hkey⟩
      · intro i hi
        rcases List.mem_append.mp hi with h | h
        · exact hqty i h
        · simp only [List.mem_singleton] at h
          subst h
          exact hq1
  | inc id portion =>
    exact wf_map_update cart _ _ (fun i _ h => by omega) hwf
  | dec id portion =>
    refine wf_filter _ _ (wf_map_update cart _ _ (fun i _ h => ?_) hwf)
    exact le_max_left _ _
  | del id portion =>
    exact wf_filter _ _ hwf

/-- Folding legal operations from a well-formed cart stays well-formed. -/
theorem cart_invariant_aux (ops : List CartOp) :
    ∀ cart, CartWf cart → (∀ op ∈ ops, op.legal) →
      CartWf (ops.foldl CartOp.apply cart) := by
  induction ops with
  | nil => exact fun cart h _ => h
  | cons op rest ih =>
    intro cart hwf hleg
    rw [List.foldl_cons]
    exact ih _ (wf_apply cart op hwf (hleg op (List.mem_cons_self op rest)))
      (fun o ho => hleg o (List.mem_cons_of_mem op ho))

/-! ### Claim theorems -/

/-- Claim C1, counterexample: `decreaseQty` applied to a line whose
quantity is 1 does NOT remove the line — `Math.max(1, quantity - 1)`
keeps the quantity at 1, so the `quantity > 0` filter retains it, and
the cart is unchanged rather than emptied. -/
theorem decrease_at_one_counterexample :
    decreaseQty [c1item] "p1" Portion.full = [c1item] ∧
    c1item.quantity = 1 ∧
    decreaseQty [c1item] "p1" Portion.full ≠ [] := by
  decide

/-- Claim C1, amended: on a cart whose quantities are all at least 1,
`decreaseQty` sets the matching line to `max 1 (quantity - 1)` —
decrementing by 1 only when the quantity is at least 2 and leaving a
quantity-1 line in place — and the trailing `quantity > 0` filter
removes nothing, so no line is ever removed; when no line matches
`(id, portion)` the cart is unchanged. -/
theorem decrease_spec (cart : List CartItem) (id : String) (portion : Portion)
    (hq : ∀ i ∈ cart, 1 ≤ i.quantity) :
    decreaseQty cart id portion
      = cart.map (fun i =>
          if i.id = id ∧ i.portion = portion then
            { i with quantity := max 1 (i.quantity - 1) }
          else i) ∧
    ((∀ i ∈ cart, ¬ (i.id = id ∧ i.portion = portion)) →
      decreaseQty cart id portion = cart) := by
  have hall : ∀ i ∈ cart.map (fun i =>
      if i.id = id ∧ i.portion = portion then
        { i with quantity := max 1 (i.quantity - 1) }
      else i), decide (0 < i.quantity) = true := by
    intro j hj
    simp only [List.mem_map] at hj
    obtain ⟨i, hi, rfl⟩ := hj
    have h1 := hq i hi
    simp only [decide_eq_true_eq]
    by_cases hc : i.id = id ∧ i.portion = portion
    · rw [if_pos hc]
      exact lt_of_lt_of_le Int.one_pos (le_max_left _ _)
    · rw [if_neg hc]
      omega
  refine ⟨List.filter_eq_self.mpr hall, fun hnone => ?_⟩
  have hmap : cart.map (fun i =>
      if i.id = id ∧ i.portion = portion then
        { i with quantity := max 1 (i.quantity - 1) }
      else i) = cart := by
    rw [List.map_congr_left (fun i hi => if_neg (hnone i hi))]
    exact List.map_id cart
  unfold decreaseQty
  rw [hmap]
  refine List.filter_eq_self.mpr fun j hj => ?_
  have := hq j hj
  simp only [decide_eq_true_eq]
  omega

/-- Witness for `decrease_spec` at a concrete cart and a key that
matches no line. -/
theorem decrease_spec_witness :
    (∀ i ∈ [c1item], 1 ≤ i.quantity) ∧
    decreaseQty [c1item] "zz" Portion.full = [c1item] :=
  ⟨by decide, (decrease_spec [c1item] "zz" Portion.full (by decide)).2 (by decide)⟩

/-- Claim C2, counterexample: for a product whose half price is
explicitly stored as 0, adding a half portion resolves the unit price
to half the full price (here 50), not to the stored half price 0 —
JavaScript `||` treats the stored 0 as unset. -/
theorem half_portion_price_counterexample :
    pHalfZero.halfPrice = some 0 ∧
    pHalfZero.price = 100 ∧
    resolvePrice pHalfZero Portion.half = 50 ∧
    (50 : ℚ) ≠ 0 := by
  refine ⟨rfl, rfl, ?_, by norm_num⟩
  norm_num [resolvePrice, jsOrNum, pHalfZero]

/-- Claim C2, amended: for `quantity ≥ 1`, `handleAddToCart` resolves
the unit price to the full price for a full portion, to the explicit
half price for a half portion when that price is set AND nonzero, and
to exactly half the full price (unrounded) when the half price is
missing or stored as 0; a line with the same `(productId, portion)` is
merged by adding the quantity (no new line appended), otherwise a new
snapshot line is appended; in particular add(P, full, 2) then
add(P, full, 3) on the empty cart yields exactly one line of
quantity 5. -/
theorem add_to_cart_spec (cart : List CartItem) (p : Product)
    (portion : Portion) (qty : ℤ) (hq : 1 ≤ qty) :
    resolvePrice p Portion.full = p.price ∧
    (∀ hp : ℚ, p.halfPrice = some hp → hp ≠ 0 →
      resolvePrice p Portion.half = hp) ∧
    ((p.halfPrice = none ∨ p.halfPrice = some 0) →
      resolvePrice p Portion.half = p.price / 2) ∧
    ((∃ i ∈ cart, i.id = p.id ∧ i.portion = portion) →
      addToCart cart p portion qty = cart.map (fun i =>
        if i.id = p.id ∧ i.portion = portion then
          { i with quantity := i.quantity + qty }
        else i)) ∧
    ((∀ i ∈ cart, ¬ (i.id = p.id ∧ i.portion = portion)) →
      addToCart cart p portion qty = cart ++ [mkCartItem p portion qty]) ∧
    (∀ P : Product, addToCart (addToCart [] P Portion.full 2) P Portion.full 3
      = [{ mkCartItem P Portion.full 2 with quantity := 5 }]) := by
  refine ⟨rfl, ?_, ?_, ?_, ?_, ?_⟩
  · intro hp hhp hne
    simp [resolvePrice, jsOrNum, hhp, hne]
  · rintro (h | h) <;> simp [resolvePrice, jsOrNum, h]
  · intro ⟨i, hi, hmatch⟩
    have hany : cart.any (fun i =>
        decide (i.id = p.id ∧ i.portion = portion)) = true := by
      rw [List.any_eq_true]
      exact ⟨i, hi, by simp [hmatch.1, hmatch.2]⟩
    simp only [addToCart, mkCartItem]
    rw [if_pos hany]
  · intro hnone
    have hany : cart.any (fun i =>
        decide (i.id = p.id ∧ i.portion = portion)) = false := by
      rw [List.any_eq_false]
      intro i hi
      simpa using hnone i hi
    simp only [addToCart, mkCartItem]
    rw [if_neg (by rw [hany]; exact Bool.false_ne_true)]
  · intro P
    simp [addToCart, mkCartItem]

/-- Witness for `add_to_cart_spec` at a concrete product and quantity. -/
theorem add_to_cart_spec_witness :
    (1 : ℤ) ≤ 2 ∧ resolvePrice exProduct Portion.full = exProduct.price :=
  ⟨by decide, (add_to_cart_spec [] exProduct Portion.full 2 (by decide)).1⟩

/-- Claim C3: every sequence of add (with quantity at least 1),
increase, decrease and remove operations, run from the empty cart,
yields a cart with pairwise-distinct `(productId, portion)` keys in
which every line quantity is at least 1. -/
theorem cart_invariant (ops : List CartOp) (h : ∀ op ∈ ops, op.legal) :
    CartWf (runOps ops) :=
  cart_invariant_aux ops []
    ⟨List.nodup_nil, fun i hi => absurd hi (List.not_mem_nil i)⟩ h

/-- Witness for `cart_invariant` on a concrete operation sequence. -/
theorem cart_invariant_witness :
    (∀ op ∈ exOps, CartOp.legal op) ∧ CartWf (runOps exOps) :=
  ⟨by decide, cart_invariant exOps (by decide)⟩

/-- Claim C4: for every cart and surcharge, the delivery total is the
subtotal plus the surcharge, the pickup total is the subtotal, and the
difference of the two totals over the same lines is exactly the
surcharge. -/
theorem total_mode_spec (cart : List CartItem) (charge : ℚ) :
    totalAmount OrderMode.online cart charge = subtotal cart + charge ∧
    totalAmount OrderMode.offline cart charge = subtotal cart ∧
    totalAmount OrderMode.online cart charge
      - totalAmount OrderMode.offline cart charge = charge := by
  simp [totalAmount]

/-- Claim C5, counterexample: a corrupt stored entry is NOT left in
place at process start — the mount-time mirror effect (inside the
claim's cited span) overwrites it with the serialization `"[]"` of the
empty cart, so the stored value after mount differs from the corrupt
one. -/
theorem corrupt_entry_overwritten_counterexample :
    (mountCartEffects failingParse (some "not json")).1 = [] ∧
    (mountCartEffects failingParse (some "not json")).2 = some "[]" ∧
    (mountCartEffects failingParse (some "not json")).2 ≠ some "not json" := by
  refine ⟨rfl, ?_, ?_⟩ <;>
    simp [mountCartEffects, rehydrateCart, adoptParsed, failingParse,
      stringifyJson, stringifyJsonList]

/-- Claim C5, amended: at process start the stored value is read once
and parsed, and is adopted as the initial cart precisely when it
parses as a JSON array; a missing entry, a parse failure and a
non-array parse all leave the cart empty with no exception visible to
the caller (the handler is total, the `catch` only logs). The read
handler itself performs no write or removal, but the mount-time mirror
effect then overwrites the stored entry with the serialized adopted
cart, so a corrupt entry does not survive startup: after mount the
entry holds `"[]"` in the corrupt and non-array cases and the
serialized array otherwise. -/
theorem rehydrate_spec (parse : String → Except String Json) (s : String) :
    rehydrateCart parse none = ([], none) ∧
    ((rehydrateCart parse (some s)).2 = some s) ∧
    (∀ e, parse s = .error e → rehydrateCart parse (some s) = ([], some s)) ∧
    (∀ xs, parse s = .ok (.arr xs) →
      rehydrateCart parse (some s) = (xs, some s)) ∧
    (∀ j, parse s = .ok j → (∀ xs, j ≠ Json.arr xs) →
      rehydrateCart parse (some s) = ([], some s)) ∧
    (∀ e, parse s = .error e →
      mountCartEffects parse (some s) = ([], some "[]")) ∧
    (∀ j, parse s = .ok j → (∀ xs, j ≠ Json.arr xs) →
      mountCartEffects parse (some s) = ([], some "[]")) ∧
    (∀ xs, parse s = .ok (.arr xs) →
      mountCartEffects parse (some s)
        = (xs, some (stringifyJson (Json.arr xs)))) := by
  have hadopt : ∀ j, (∀ xs, j ≠ Json.arr xs) → adoptParsed (.ok j) = [] := by
    intro j hnot
    cases j with
    | arr xs => exact absurd rfl (hnot xs)
    | nul => rfl
    | bool b => rfl
    | num q => rfl
    | str t => rfl
    | obj fs => rfl
  refine ⟨rfl, rfl, ?_, ?_, ?_, ?_, ?_, ?_⟩
  · intro e he
    simp only [rehydrateCart, he, adoptParsed]
  · intro xs hxs
    simp only [rehydrateCart, hxs, adoptParsed]
  · intro j hj hnot
    simp only [rehydrateCart, hj, hadopt j hnot]
  · intro e he
    simp only [mountCartEffects, rehydrateCart, he, adoptParsed]
    simp [stringifyJson, stringifyJsonList]
  · intro j hj hnot
    simp only [mountCartEffects, rehydrateCart, hj, hadopt j hnot]
    simp [stringifyJson, stringifyJsonList]
  · intro xs hxs
    simp only [mountCartEffects, rehydrateCart, hxs, adoptParsed]

/-- Witness for `rehydrate_spec` on a stored value whose parse fails:
the cart starts empty and the entry ends up holding `"[]"`. -/
theorem rehydrate_spec_witness :
    failingParse "not json" = Except.error "SyntaxError: Unexpected token" ∧
    rehydrateCart failingParse (some "not json") = ([], some "not json") ∧
    mountCartEffects failingParse (some "not json") = ([], some "[]") :=
  ⟨rfl,
    (rehydrate_spec failingParse "not json").2.2.1
      "SyntaxError: Unexpected token" rfl,
    (rehydrate_spec failingParse "not json").2.2.2.2.2.1
      "SyntaxError: Unexpected token" rfl⟩

/-- Claim C6, counterexample: the product-subscription error handler
DOES force-clear the affected loading flag (it sets it to false), and
the category-subscription error handler clears the global
category-loading flag — contradicting the claim that the flags are not
force-cleared and may remain true. -/
theorem loading_flag_cleared_counterexample :
    lookupEntry exSync.loadingProductsByCat "c1" = some true ∧
    lookupEntry (onProductsError "c1" exSync).loadingProductsByCat "c1"
      = some false ∧
    exSync.loadingCategories = true ∧
    (onCategoriesError exSync).loadingCategories = false := by
  decide

/-- Claim C6, amended: on a subscription error the previously-synced
categories and products are retained unchanged and other categories
loading flags are untouched, but the affected loading flag IS cleared:
the product error handler sets the category flag to false and the
category error handler sets the global loading flag to false. -/
theorem sync_error_spec (s : SyncState) (catId : String) :
    (onProductsError catId s).categories = s.categories ∧
    (onProductsError catId s).productsByCat = s.productsByCat ∧
    lookupEntry (onProductsError catId s).loadingProductsByCat catId
      = some false ∧
    (∀ c, c ≠ catId →
      lookupEntry (onProductsError catId s).loadingProductsByCat c
        = lookupEntry s.loadingProductsByCat c) ∧
    (onCategoriesError s).categories = s.categories ∧
    (onCategoriesError s).productsByCat = s.productsByCat ∧
    (onCategoriesError s).loadingCategories = false :=
  ⟨rfl, rfl, lookupEntry_update_self _ _ _,
    fun c hc => lookupEntry_update_other _ _ _ _ hc, rfl, rfl, rfl⟩

/-- Witness for `sync_error_spec`: an error on one category leaves the
loading flag of a different category unchanged. -/
theorem sync_error_spec_witness :
    ("c1" : String) ≠ "c2" ∧
    lookupEntry (onProductsError "c2" exSync).loadingProductsByCat "c1"
      = lookupEntry exSync.loadingProductsByCat "c1" :=
  ⟨by decide, (sync_error_spec exSync "c2").2.2.2.1 "c1" (by decide)⟩

/-- Claim C7, counterexample: for the quantity-2 Paneer Roll line the
composed order line is NOT the claimed string — the code appends the
quantity annotation " x2" because the quantity exceeds 1. -/
theorem order_line_counterexample :
    orderLine c7item ≠ "*Paneer Roll (Full)* — ₹240.00" := by
  unfold orderLine
  rw [toFixed2_eq_of_floor _ 24000 (by norm_num [c7item])]
  decide

/-- Claim C7, amended: for the single line (Paneer Roll, full, price
120, quantity 2, serves "1") in pickup mode the composed order line
reads exactly "*Paneer Roll (Full) x2* — ₹240.00", the message is the
pickup message whose trailer total reads ₹240.00, and no
delivery-charge line appears in it. -/
theorem pickup_message_spec :
    orderLine c7item = "*Paneer Roll (Full) x2* — ₹240.00" ∧
    composeMessage [c7item] OrderMode.offline 50 "" "" "" "FF-123456"
      = "*New Order*\n\n*Order ID:* FF-123456\n*Mode:* Takeaway (Offline)\n\n*Paneer Roll (Full) x2* — ₹240.00\n\n*Subtotal: ₹240.00*\n*Total: ₹240.00*\n\nPlease confirm my order." ∧
    "*Total: ₹240.00*".data <:+:
      (composeMessage [c7item] OrderMode.offline 50 "" "" "" "FF-123456").data ∧
    ¬ ("Delivery Charge".data <:+:
      (composeMessage [c7item] OrderMode.offline 50 "" "" "" "FF-123456").data) := by
  have hline : orderLine c7item = "*Paneer Roll (Full) x2* — ₹240.00" := by
    unfold orderLine
    rw [toFixed2_eq_of_floor _ 24000 (by norm_num [c7item])]
    decide
  have hsub : subtotal [c7item] = 240 := by
    simp only [subtotal, List.foldl, c7item]
    norm_num
  have hmode : OrderMode.offline ≠ OrderMode.online := by decide
  have hmsg : composeMessage [c7item] OrderMode.offline 50 "" "" "" "FF-123456"
      = "*New Order*\n\n*Order ID:* FF-123456\n*Mode:* Takeaway (Offline)\n\n*Paneer Roll (Full) x2* — ₹240.00\n\n*Subtotal: ₹240.00*\n*Total: ₹240.00*\n\nPlease confirm my order." := by
    unfold composeMessage totalAmount
    simp only [List.map, hline, hsub, String.intercalate, hmode, if_neg,
      ite_false, if_false]
    rw [toFixed2_eq_of_floor 240 24000 (by norm_num)]
    decide
  refine ⟨hline, hmsg, ?_, ?_⟩
  · rw [hmsg]
    decide
  · rw [hmsg]
    decide

/-- Claim C8: a delivery-mode checkout with an empty customer name, a
phone number that does not strip to exactly ten digits, or an empty
address is blocked before composition — no order id, no message, no
cart change (`handleProceedToBuy` returns `none`). -/
theorem delivery_validation (cart : List CartItem) (name phone addr : String)
    (charge rand : ℚ)
    (h : name = "" ∨ isTenDigits (stripNonDigits phone) = false ∨ addr = "") :
    handleProceedToBuy cart OrderMode.online name phone addr charge rand
      = none := by
  unfold handleProceedToBuy
  by_cases h0 : cart.length = 0
  · rw [if_pos h0]
  · rw [if_neg h0]
    by_cases h2 : OrderMode.online = OrderMode.online ∧
        (name = "" ∨ phone = "" ∨ addr = "")
    · rw [if_pos h2]
    · rcases h with h | h | h
      · exact absurd ⟨rfl, Or.inl h⟩ h2
      · rw [if_neg h2, if_pos ⟨rfl, by simp [h]⟩]
      · exact absurd ⟨rfl, Or.inr (Or.inr h)⟩ h2

/-- Witness for `delivery_validation`: a nonempty cart with a
five-digit phone number is blocked. -/
theorem delivery_validation_witness :
    (("Asha" : String) = "" ∨
      isTenDigits (stripNonDigits "12345") = false ∨
      ("12 A Street" : String) = "") ∧
    handleProceedToBuy [c1item] OrderMode.online "Asha" "12345" "12 A Street"
      50 0 = none :=
  ⟨Or.inr (Or.inl (by decide)),
    delivery_validation [c1item] "Asha" "12345" "12 A Street" 50 0
      (Or.inr (Or.inl (by decide)))⟩

/-- Claim C9: when the stored half price is exactly 0, the half-portion
unit price resolves to half the full price — the field is consulted by
JavaScript truthiness, not by presence. -/
theorem half_price_zero_fallback (p : Product) (h : p.halfPrice = some 0) :
    resolvePrice p Portion.half = p.price / 2 := by
  simp [resolvePrice, jsOrNum, h]

/-- Witness for `half_price_zero_fallback` at a concrete product. -/
theorem half_price_zero_fallback_witness :
    pHalfZero.halfPrice = some 0 ∧
    resolvePrice pHalfZero Portion.half = pHalfZero.price / 2 :=
  ⟨rfl, half_price_zero_fallback pHalfZero rfl⟩

/-- Claim C10: when an add merges into an existing `(productId,
portion)` line, the cart keeps its length and every line keeps every
field except quantity — the matching line only gains the added
quantity, so the freshly supplied product snapshot (name, prices,
description, images, veg flag, serves label) is discarded and all
other lines are untouched. -/
theorem merge_frame (cart : List CartItem) (p : Product) (portion : Portion)
    (qty : ℤ) (h : ∃ i ∈ cart, i.id = p.id ∧ i.portion = portion) :
    (addToCart cart p portion qty).length = cart.length ∧
    ∀ k : ℕ,
      ((addToCart cart p portion qty)[k]?).map CartItem.id
        = (cart[k]?).map CartItem.id ∧
      ((addToCart cart p portion qty)[k]?).map CartItem.name
        = (cart[k]?).map CartItem.name ∧
      ((addToCart cart p portion qty)[k]?).map CartItem.price
        = (cart[k]?).map CartItem.price ∧
      ((addToCart cart p portion qty)[k]?).map CartItem.halfPrice
        = (cart[k]?).map CartItem.halfPrice ∧
      ((addToCart cart p portion qty)[k]?).map CartItem.portion
        = (cart[k]?).map CartItem.portion ∧
      ((addToCart cart p portion qty)[k]?).map CartItem.description
        = (cart[k]?).map CartItem.description ∧
      ((addToCart cart p portion qty)[k]?).map CartItem.imageUrl
        = (cart[k]?).map CartItem.imageUrl ∧
      ((addToCart cart p portion qty)[k]?).map CartItem.imageUrls
        = (cart[k]?).map CartItem.imageUrls ∧
      ((addToCart cart p portion qty)[k]?).map CartItem.isVeg
        = (cart[k]?).map CartItem.isVeg ∧
      ((addToCart cart p portion qty)[k]?).map CartItem.serves
        = (cart[k]?).map CartItem.serves ∧
      ((addToCart cart p portion qty)[k]?).map CartItem.quantity
        = (cart[k]?).map (fun i =>
            if i.id = p.id ∧ i.portion = portion then i.quantity + qty
            else i.quantity) := by
  obtain ⟨i, hi, hmatch⟩ := h
  have hany : cart.any (fun i =>
      decide (i.id = p.id ∧ i.portion = portion)) = true := by
    rw [List.any_eq_true]
    exact ⟨i, hi, by simp [hmatch.1, hmatch.2]⟩
  have hform : addToCart cart p portion qty = cart.map (fun i =>
      if i.id = p.id ∧ i.portion = portion then
        { i with quantity := i.quantity + qty }
      else i) := by
    simp only [addToCart, mkCartItem]
    rw [if_pos hany]
  rw [hform]
  refine ⟨List.length_map _ _, fun k => ?_⟩
  rw [List.getElem?_map]
  cases hk : cart[k]? with
  | none => simp
  | some j =>
    by_cases hc : j.id = p.id ∧ j.portion = portion <;>
      simp [hc]

/-- Witness for `merge_frame`: merging three more units into a
one-line cart keeps the snapshot name of the existing line. -/
theorem merge_frame_witness :
    (∃ i ∈ [mkCartItem exProduct Portion.full 1],
      i.id = exProduct.id ∧ i.portion = Portion.full) ∧
    ((addToCart [mkCartItem exProduct Portion.full 1] exProduct
        Portion.full 3)[0]?).map CartItem.name
      = (([mkCartItem exProduct Portion.full 1] : List CartItem)[0]?).map
          CartItem.name := by
  have h : ∃ i ∈ [mkCartItem exProduct Portion.full 1],
      i.id = exProduct.id ∧ i.portion = Portion.full :=
    ⟨mkCartItem exProduct Portion.full 1, by simp, rfl, rfl⟩
  exact ⟨h, ((merge_frame _ exProduct Portion.full 3 h).2 0).2.1⟩

end RajRestro
